import Mathlib

/-!
Verification of the patched-conic Earth--Moon transfer model
(patched_conic.py) over a shallow embedding into the reals.

Modelling conventions:
- Python floats become real numbers; the decimal literals of the source are
  taken as exact rationals.  Floating-point rounding itself is outside the
  model, so numerical equalities of the source become exact equalities here.
- numpy operations never raise; an out-of-domain arccos or arcsin yields NaN.
  Where the definedness of a quantity matters (the domain-safety claims) we
  use an Option-valued variant acosN / asinN that tracks NaN explicitly;
  elsewhere quantities are real-valued (Mathlib total functions), which is
  faithful on the valid domain.  Division by zero is exact-real (x / 0 = 0 in
  Lean); no theorem below depends on the value of a division at a zero
  denominator.
- The two-body Orbit class lives in orbit.py, which is not part of the given
  sources; it is modelled from the specification where the claims need it
  (the OrbitState record, its constructor and the at-radius operation).
- The guard "if arrive.a <= 0: raise ValueError" of PatchedConic.__init__ and
  the "expected radius is not reached" failure of init_patched_conic are the
  only exception paths of the modelled code, and become an Except error type.
-/

namespace PatchedConic

noncomputable section

/-- Modelled from the spec: the immutable two-body orbital state supplied by
the external orbit module (spec sections 3 and 4.1): gravitational parameter,
radius, speed, flight-path angle, eccentricity, semimajor axis, cosines of the
eccentric and true anomalies, and angular momentum. -/
structure OrbitState where
  mu : ℝ
  r : ℝ
  v : ℝ
  phi : ℝ
  e : ℝ
  a : ℝ
  cos_E : ℝ
  cos_nu : ℝ
  h : ℝ

/-! Physical constants of the earth--moon system (source lines 22-29). -/

/-- Distance from earth to moon in m. -/
def D : ℝ := 384402000

/-- Angular rate of the moon in rad/s. -/
def OMEGA : ℝ := 2.649e-3

/-- Mean velocity of the moon relative to earth in m/s. -/
def V : ℝ := OMEGA * D

/-- Radius of the moon in m. -/
def R : ℝ := 1737000

/-- Moon gravitational constant, m^3/s^2 (named mu on the PatchedConic class). -/
def mu_moon : ℝ := 4.9048695e12

/-- Earth gravitational constant, m^3/s^2. -/
def mu_earth : ℝ := 3.986004418e14

/-- Radius of the lunar sphere of influence: (mu / mu_earth)**0.4 * D. -/
def r_soi : ℝ := (mu_moon / mu_earth) ^ (0.4 : ℝ) * D

/-- np.clip with scalar bounds: min(max(x, lo), hi). -/
def clip (x lo hi : ℝ) : ℝ := min (max x lo) hi

/-! The quantities computed by PatchedConic.__init__ (source lines 31-133),
one definition per assignment, in the dependency order of the source. -/

/-- Eccentric anomaly at departure: E0 = arccos(depart.cos_E) (line 58). -/
def E0Of (d : OrbitState) : ℝ := Real.arccos d.cos_E

/-- Eccentric anomaly at SOI intercept: E1 = arccos(arrive.cos_E) (line 59). -/
def E1Of (a : OrbitState) : ℝ := Real.arccos a.cos_E

/-- Time of flight by the Kepler equation (line 69). -/
def tofOf (d a : OrbitState) : ℝ :=
  Real.sqrt (a.a ^ 3 / a.mu) *
    ((E1Of a - a.e * Real.sin (E1Of a)) - (E0Of d - a.e * Real.sin (E0Of d)))

/-- True anomaly at departure (line 76). -/
def nu0Of (d : OrbitState) : ℝ := Real.arccos d.cos_nu

/-- True anomaly at SOI intercept (line 77). -/
def nu1Of (a : OrbitState) : ℝ := Real.arccos a.cos_nu

/-- Clipped sine of the arrival phase angle (line 80). -/
def sg1Of (a : OrbitState) (lam1 : ℝ) : ℝ :=
  clip ((r_soi / a.r) * Real.sin lam1) (-1) 1

/-- Phase angle at arrival: gam1 = arcsin(sg1) (line 81). -/
def gam1Of (a : OrbitState) (lam1 : ℝ) : ℝ := Real.arcsin (sg1Of a lam1)

/-- Phase angle at departure (line 86). -/
def gam0Of (d a : OrbitState) (lam1 : ℝ) : ℝ :=
  nu1Of a - nu0Of d - gam1Of a lam1 - OMEGA * tofOf d a

/-- Selenocentric speed at SOI entry by the law of cosines (line 90). -/
def v2Of (a : OrbitState) (lam1 : ℝ) : ℝ :=
  Real.sqrt (a.v ^ 2 + V ^ 2 - 2 * a.v * V * Real.cos (a.phi - gam1Of a lam1))

/-- Clipped sine of the hyperbolic miss angle (line 96). -/
def seps2Of (a : OrbitState) (lam1 : ℝ) : ℝ :=
  clip ((V * Real.cos lam1 - a.v * Real.cos (lam1 + gam1Of a lam1 - a.phi)) /
    (-(v2Of a lam1))) (-1) 1

/-- Hyperbolic miss angle: eps2 = arcsin(seps2) (line 97). -/
def eps2Of (a : OrbitState) (lam1 : ℝ) : ℝ := Real.arcsin (seps2Of a lam1)

/-- Selenocentric flight-path angle (lines 101-102). -/
def phi2Of (a : OrbitState) (lam1 : ℝ) : ℝ :=
  Real.arctan ((-a.v) * Real.sin (a.phi - gam1Of a lam1) /
    (V - a.v * Real.cos (a.phi - gam1Of a lam1))) - lam1

/-- Energy ratio Q = r * v^2 / mu at SOI entry, with r = r_soi, v = v2 and
mu the moon gravitational constant (line 111). -/
def Q2Of (a : OrbitState) (lam1 : ℝ) : ℝ := r_soi * (v2Of a lam1) ^ 2 / mu_moon

/-- Circular speed at the target lunar radius: vf = sqrt(mu / rf) (line 113). -/
def vfOf (rf : ℝ) : ℝ := Real.sqrt (mu_moon / rf)

/-- Lunar-hyperbola eccentricity (line 125). -/
def efOf (a : OrbitState) (lam1 : ℝ) : ℝ :=
  Real.sqrt (1 + Q2Of a lam1 * (Q2Of a lam1 - 2) * Real.cos (phi2Of a lam1) ^ 2)

/-- Lunar-hyperbola semimajor axis (line 126). -/
def afOf (a : OrbitState) (lam1 : ℝ) : ℝ := r_soi / (2 - Q2Of a lam1)

/-- Perilune radius (line 129). -/
def rplOf (a : OrbitState) (lam1 : ℝ) : ℝ := afOf a lam1 * (1 - efOf a lam1)

/-- Perilune speed (line 130). -/
def vplOf (a : OrbitState) (lam1 : ℝ) : ℝ :=
  Real.sqrt ((mu_moon * (1 + efOf a lam1)) / (afOf a lam1 * (1 - efOf a lam1)))

/-! The sensitivities computed by PatchedConic.compute_gradients
(source lines 136-252), one definition per assignment. -/

/-- Eq. 57 (line 168). -/
def dv1_dv0Of (d a : OrbitState) : ℝ := d.v / a.v

/-- Eq. 58 (line 169). -/
def dphi1_dv0Of (d a : OrbitState) : ℝ :=
  (d.v / a.v - a.v / d.v) / (a.v * Real.tan a.phi)

/-- Eq. 59 (line 170). -/
def dv2_dv0Of (d a : OrbitState) (lam1 : ℝ) : ℝ :=
  ((a.v - V * Real.cos (a.phi - gam1Of a lam1)) / v2Of a lam1) * dv1_dv0Of d a +
    ((a.v * V * Real.sin (a.phi - gam1Of a lam1)) / v2Of a lam1) * dphi1_dv0Of d a

/-- Eq. 60 (line 171). -/
def dphi2_dv1Of (a : OrbitState) (lam1 : ℝ) : ℝ :=
  (-V) * Real.sin (a.phi - gam1Of a lam1) / (v2Of a lam1) ^ 2

/-- Eq. 61 (line 172). -/
def dphi2_dphi1Of (a : OrbitState) (lam1 : ℝ) : ℝ :=
  (a.v ^ 2 - a.v * V * Real.cos (a.phi - gam1Of a lam1)) / (v2Of a lam1) ^ 2

/-- Chain rule for phi2 w.r.t. v0 (line 173). -/
def dphi2_dv0Of (d a : OrbitState) (lam1 : ℝ) : ℝ :=
  dphi2_dv1Of a lam1 * dv1_dv0Of d a + dphi2_dphi1Of a lam1 * dphi1_dv0Of d a

/-- Eq. 63 (line 176). -/
def def_dv2Of (a : OrbitState) (lam1 : ℝ) : ℝ :=
  2 * Q2Of a lam1 * (Q2Of a lam1 - 1) * Real.cos (phi2Of a lam1) ^ 2 /
    (efOf a lam1 * v2Of a lam1)

/-- Eq. 64 (line 177). -/
def def_dphi2Of (a : OrbitState) (lam1 : ℝ) : ℝ :=
  (-(Q2Of a lam1)) * (Q2Of a lam1 - 2) * Real.cos (phi2Of a lam1) *
    Real.sin (phi2Of a lam1) / efOf a lam1

/-- Eq. 65 (line 178). -/
def def_dv0Of (d a : OrbitState) (lam1 : ℝ) : ℝ :=
  def_dv2Of a lam1 * dv2_dv0Of d a lam1 + def_dphi2Of a lam1 * dphi2_dv0Of d a lam1

/-- Sensitivity of af to v0 (line 179). -/
def daf_dv0Of (d a : OrbitState) (lam1 : ℝ) : ℝ :=
  (2 * (afOf a lam1) ^ 2 * v2Of a lam1 * dv2_dv0Of d a lam1) / mu_moon

/-- Sensitivity of rpl to af (line 180). -/
def drpl_dafOf (a : OrbitState) (lam1 : ℝ) : ℝ := 1 - efOf a lam1

/-- Sensitivity of rpl to ef (line 181). -/
def drpl_defOf (a : OrbitState) (lam1 : ℝ) : ℝ := afOf a lam1

/-- Sensitivity of rpl to v0 (line 182). -/
def drpl_dv0Of (d a : OrbitState) (lam1 : ℝ) : ℝ :=
  drpl_dafOf a lam1 * daf_dv0Of d a lam1 - drpl_defOf a lam1 * def_dv0Of d a lam1

/-- Departure delta-v magnitude (line 198): |v0 - sqrt(mu / r0)| with mu and
r0 taken from the departure state. -/
def deltav1Of (d : OrbitState) : ℝ := |d.v - Real.sqrt (d.mu / d.r)|

/-- Lunar-orbit-insertion term (line 199): vpl - vf, with no absolute value. -/
def deltav2Of (a : OrbitState) (lam1 rf : ℝ) : ℝ := vplOf a lam1 - vfOf rf

/-- Eq. 66 (line 201); r2 is self.r = r_soi and r1 is arrive.r. -/
def dv1_dlam1Of (d a : OrbitState) (lam1 : ℝ) : ℝ :=
  (-d.mu) * D * r_soi * Real.sin lam1 / (a.v * a.r ^ 3)

/-- Eq. 67 (line 202). -/
def dphi1_dlam1Of (d a : OrbitState) (lam1 : ℝ) : ℝ :=
  a.h * D * r_soi * Real.sin lam1 / (a.v * a.r ^ 3 * Real.sin a.phi) -
    a.h * D * r_soi * d.mu * Real.sin lam1 / (a.v ^ 3 * a.r ^ 4 * Real.sin a.phi)

/-- Eq. 68 (line 203). -/
def dgam1_dlam1Of (a : OrbitState) (lam1 : ℝ) : ℝ :=
  r_soi * Real.cos lam1 / (a.r * Real.cos (gam1Of a lam1)) -
    D * (r_soi * Real.sin lam1) ^ 2 / (a.r ^ 3 * Real.cos (gam1Of a lam1))

/-- Eq. 69 (lines 205-207). -/
def dv2_dlam1Of (d a : OrbitState) (lam1 : ℝ) : ℝ :=
  ((a.v - V * Real.cos (a.phi - gam1Of a lam1)) * dv1_dlam1Of d a lam1 +
    (a.v * V * Real.sin (a.phi - gam1Of a lam1)) * dphi1_dlam1Of d a lam1 -
    (a.v * V * Real.sin (a.phi - gam1Of a lam1)) * dgam1_dlam1Of a lam1) / v2Of a lam1

/-- Eq. 71 (line 208). -/
def dphi2_dgam1Of (a : OrbitState) (lam1 : ℝ) : ℝ :=
  (V * a.v * Real.cos (a.phi - gam1Of a lam1) - a.v ^ 2) / (v2Of a lam1) ^ 2

/-- Eq. 73, partial (line 212). -/
def dphi2_dlam1Of (d a : OrbitState) (lam1 : ℝ) : ℝ :=
  dphi2_dphi1Of a lam1 * dphi1_dlam1Of d a lam1 +
    dphi2_dgam1Of a lam1 * dgam1_dlam1Of a lam1 +
    dphi2_dv1Of a lam1 * dv1_dlam1Of d a lam1 - 1

/-- Eq. 74 (line 214); r2 is self.r = r_soi and mu_moon is self.mu. -/
def dQ2_dlam1Of (d a : OrbitState) (lam1 : ℝ) : ℝ :=
  2 * r_soi * v2Of a lam1 * dv2_dlam1Of d a lam1 / mu_moon

/-- Eq. 75 (line 215). -/
def daf_dQ2Of (a : OrbitState) (lam1 : ℝ) : ℝ := afOf a lam1 / (2 - Q2Of a lam1)

/-- Eq. 76 (line 216). -/
def def_dQ2Of (a : OrbitState) (lam1 : ℝ) : ℝ :=
  (Q2Of a lam1 - 1) * Real.cos (phi2Of a lam1) ^ 2 / efOf a lam1

/-- Eq. 78 (line 218). -/
def daf_dlam1Of (d a : OrbitState) (lam1 : ℝ) : ℝ :=
  daf_dQ2Of a lam1 * dQ2_dlam1Of d a lam1

/-- Eq. 79 (line 219). -/
def def_dlam1Of (d a : OrbitState) (lam1 : ℝ) : ℝ :=
  def_dQ2Of a lam1 * dQ2_dlam1Of d a lam1 +
    def_dphi2Of a lam1 * dphi2_dlam1Of d a lam1

/-- Eq. 80 (line 220). -/
def drpl_dlam1Of (d a : OrbitState) (lam1 : ℝ) : ℝ :=
  (1 - efOf a lam1) * daf_dlam1Of d a lam1 - afOf a lam1 * def_dlam1Of d a lam1

/-- Constraint sensitivity to lam1 (lines 221-222): dg_drpl * drpl_dlam1. -/
def dg_dlam1Of (d a : OrbitState) (lam1 : ℝ) : ℝ := (-1) * drpl_dlam1Of d a lam1

/-- Constraint sensitivity to v0, Eq. 88 negated (line 223). -/
def dg_dv0Of (d a : OrbitState) (lam1 : ℝ) : ℝ := -(drpl_dv0Of d a lam1)

/-- Eq. 89 negated (line 225). -/
def dvpl_dafOf (a : OrbitState) (lam1 : ℝ) : ℝ :=
  0.5 * Real.sqrt ((mu_moon * (1 + efOf a lam1)) /
    ((afOf a lam1) ^ 3 * (1 - efOf a lam1)))

/-- Eq. 90 negated (line 226). -/
def dvpl_defOf (a : OrbitState) (lam1 : ℝ) : ℝ :=
  -(Real.sqrt (mu_moon / ((1 + efOf a lam1) * afOf a lam1 * (1 - efOf a lam1) ^ 3)))

/-- Sensitivity of vpl to lam1 (line 229). -/
def dvpl_dlam1Of (d a : OrbitState) (lam1 : ℝ) : ℝ :=
  dvpl_dafOf a lam1 * daf_dlam1Of d a lam1 + dvpl_defOf a lam1 * def_dlam1Of d a lam1

/-- ddeltav2_dlam1 = ddeltav2_dvpl * dvpl_dlam1 with ddeltav2_dvpl = 1 (line 230). -/
def ddeltav2_dlam1Of (d a : OrbitState) (lam1 : ℝ) : ℝ := 1 * dvpl_dlam1Of d a lam1

/-- Cost sensitivity to lam1 (line 231). -/
def df_dlam1Of (d a : OrbitState) (lam1 : ℝ) : ℝ := ddeltav2_dlam1Of d a lam1

/-- Sensitivity of vpl to v0 (line 233). -/
def dvpl_dv0Of (d a : OrbitState) (lam1 : ℝ) : ℝ :=
  dvpl_defOf a lam1 * def_dv0Of d a lam1 + dvpl_dafOf a lam1 * daf_dv0Of d a lam1

/-- ddeltav2_dv0 = ddeltav2_dvpl * dvpl_dv0 (line 234). -/
def ddeltav2_dv0Of (d a : OrbitState) (lam1 : ℝ) : ℝ := 1 * dvpl_dv0Of d a lam1

/-- Cost sensitivity to v0 (line 235): ddeltav1_dv0 + ddeltav2_dv0. -/
def df_dv0Of (d a : OrbitState) (lam1 : ℝ) : ℝ := 1 + ddeltav2_dv0Of d a lam1

/-- Scalar cost f = deltav1 + deltav2 (line 236). -/
def fOf (d a : OrbitState) (lam1 rf : ℝ) : ℝ := deltav1Of d + deltav2Of a lam1 rf

/-- Scalar constraint g = rf - rpl (line 239). -/
def gOf (a : OrbitState) (lam1 rf : ℝ) : ℝ := rf - rplOf a lam1

/-- Lagrange multiplier estimate (lines 244-245):
lam = -(1 / (dgdx . dgdx)) * (dgdx . dfdx). -/
def lamOf (d a : OrbitState) (lam1 : ℝ) : ℝ :=
  -((1 / (dg_dlam1Of d a lam1 * dg_dlam1Of d a lam1 +
      dg_dv0Of d a lam1 * dg_dv0Of d a lam1)) *
    (dg_dlam1Of d a lam1 * df_dlam1Of d a lam1 +
      dg_dv0Of d a lam1 * df_dv0Of d a lam1))

/-- First component of the augmented gradient dF_dx = dfdx + dgdx * lam (line 248). -/
def dF1Of (d a : OrbitState) (lam1 : ℝ) : ℝ :=
  df_dlam1Of d a lam1 + dg_dlam1Of d a lam1 * lamOf d a lam1

/-- Second component of the augmented gradient (line 248). -/
def dF2Of (d a : OrbitState) (lam1 : ℝ) : ℝ :=
  df_dv0Of d a lam1 + dg_dv0Of d a lam1 * lamOf d a lam1

/-- Augmented objective F = f + g * lam (line 249). -/
def FOf (d a : OrbitState) (lam1 rf : ℝ) : ℝ :=
  fOf d a lam1 rf + gOf a lam1 rf * lamOf d a lam1

/-- Optimality residual Q_opt = Fx . Fx (lines 251-252). -/
def Q_optOf (d a : OrbitState) (lam1 : ℝ) : ℝ :=
  dF1Of d a lam1 * dF1Of d a lam1 + dF2Of d a lam1 * dF2Of d a lam1

/-- The PatchedConic object: every attribute assigned by __init__ and
compute_gradients, in source order. -/
structure PCState where
  depart : OrbitState
  arrive : OrbitState
  lam1 : ℝ
  rf : ℝ
  r : ℝ
  v : ℝ
  phi : ℝ
  eps : ℝ
  Q : ℝ
  vf : ℝ
  gam0 : ℝ
  E0 : ℝ
  nu0 : ℝ
  t0 : ℝ
  gam1 : ℝ
  E1 : ℝ
  nu1 : ℝ
  t1 : ℝ
  ef : ℝ
  af : ℝ
  rpl : ℝ
  vpl : ℝ
  dv1_dv0 : ℝ
  dphi1_dv0 : ℝ
  dv2_dv0 : ℝ
  dphi2_dv1 : ℝ
  dphi2_dphi1 : ℝ
  dphi2_dv0 : ℝ
  def_dv2 : ℝ
  def_dphi2 : ℝ
  def_dv0 : ℝ
  daf_dv0 : ℝ
  drpl_daf : ℝ
  drpl_def : ℝ
  drpl_dv0 : ℝ
  x : ℝ × ℝ
  deltav1 : ℝ
  deltav2 : ℝ
  dv1_dlam1 : ℝ
  dphi1_dlam1 : ℝ
  dgam1_dlam1 : ℝ
  dv2_dlam1 : ℝ
  dphi2_dgam1 : ℝ
  dphi2_dlam1 : ℝ
  dQ2_dlam1 : ℝ
  daf_dQ2 : ℝ
  def_dQ2 : ℝ
  daf_dlam1 : ℝ
  def_dlam1 : ℝ
  drpl_dlam1 : ℝ
  dg_drpl : ℝ
  dg_dlam1 : ℝ
  dg_dv0 : ℝ
  ddeltav2_dvpl : ℝ
  dvpl_daf : ℝ
  dvpl_def : ℝ
  ddeltav2_def : ℝ
  ddeltav2_daf : ℝ
  dvpl_dlam1 : ℝ
  ddeltav2_dlam1 : ℝ
  df_dlam1 : ℝ
  ddeltav1_dv0 : ℝ
  dvpl_dv0 : ℝ
  ddeltav2_dv0 : ℝ
  df_dv0 : ℝ
  f : ℝ
  df_dx : ℝ × ℝ
  dg_dx : ℝ × ℝ
  g : ℝ
  lam : ℝ
  P : ℝ
  dF_dx : ℝ × ℝ
  F : ℝ
  Q_opt : ℝ

/-- The successful body of PatchedConic.__init__ together with
compute_gradients, as a pure function of the four constructor inputs.
The elliptical-arrival precondition lives in mkPatchedConic below. -/
def pcBuild (d a : OrbitState) (lam1 rf : ℝ) : PCState :=
  { depart := d
    arrive := a
    lam1 := lam1
    rf := rf
    r := r_soi
    v := v2Of a lam1
    phi := phi2Of a lam1
    eps := eps2Of a lam1
    Q := Q2Of a lam1
    vf := vfOf rf
    gam0 := gam0Of d a lam1
    E0 := E0Of d
    nu0 := nu0Of d
    t0 := 0
    gam1 := gam1Of a lam1
    E1 := E1Of a
    nu1 := nu1Of a
    t1 := tofOf d a
    ef := efOf a lam1
    af := afOf a lam1
    rpl := rplOf a lam1
    vpl := vplOf a lam1
    dv1_dv0 := dv1_dv0Of d a
    dphi1_dv0 := dphi1_dv0Of d a
    dv2_dv0 := dv2_dv0Of d a lam1
    dphi2_dv1 := dphi2_dv1Of a lam1
    dphi2_dphi1 := dphi2_dphi1Of a lam1
    dphi2_dv0 := dphi2_dv0Of d a lam1
    def_dv2 := def_dv2Of a lam1
    def_dphi2 := def_dphi2Of a lam1
    def_dv0 := def_dv0Of d a lam1
    daf_dv0 := daf_dv0Of d a lam1
    drpl_daf := drpl_dafOf a lam1
    drpl_def := drpl_defOf a lam1
    drpl_dv0 := drpl_dv0Of d a lam1
    x := (lam1, d.v)
    deltav1 := deltav1Of d
    deltav2 := deltav2Of a lam1 rf
    dv1_dlam1 := dv1_dlam1Of d a lam1
    dphi1_dlam1 := dphi1_dlam1Of d a lam1
    dgam1_dlam1 := dgam1_dlam1Of a lam1
    dv2_dlam1 := dv2_dlam1Of d a lam1
    dphi2_dgam1 := dphi2_dgam1Of a lam1
    dphi2_dlam1 := dphi2_dlam1Of d a lam1
    dQ2_dlam1 := dQ2_dlam1Of d a lam1
    daf_dQ2 := daf_dQ2Of a lam1
    def_dQ2 := def_dQ2Of a lam1
    daf_dlam1 := daf_dlam1Of d a lam1
    def_dlam1 := def_dlam1Of d a lam1
    drpl_dlam1 := drpl_dlam1Of d a lam1
    dg_drpl := -1
    dg_dlam1 := dg_dlam1Of d a lam1
    dg_dv0 := dg_dv0Of d a lam1
    ddeltav2_dvpl := 1
    dvpl_daf := dvpl_dafOf a lam1
    dvpl_def := dvpl_defOf a lam1
    ddeltav2_def := 1 * dvpl_defOf a lam1
    ddeltav2_daf := 1 * dvpl_dafOf a lam1
    dvpl_dlam1 := dvpl_dlam1Of d a lam1
    ddeltav2_dlam1 := ddeltav2_dlam1Of d a lam1
    df_dlam1 := df_dlam1Of d a lam1
    ddeltav1_dv0 := 1
    dvpl_dv0 := dvpl_dv0Of d a lam1
    ddeltav2_dv0 := ddeltav2_dv0Of d a lam1
    df_dv0 := df_dv0Of d a lam1
    f := fOf d a lam1 rf
    df_dx := (df_dlam1Of d a lam1, df_dv0Of d a lam1)
    dg_dx := (dg_dlam1Of d a lam1, dg_dv0Of d a lam1)
    g := gOf a lam1 rf
    lam := lamOf d a lam1
    P := gOf a lam1 rf ^ 2
    dF_dx := (dF1Of d a lam1, dF2Of d a lam1)
    F := FOf d a lam1 rf
    Q_opt := Q_optOf d a lam1 }

/-- The exception conditions of the modelled code. -/
inductive PCErr where
  | notElliptical
  | radiusNotReached
deriving DecidableEq

/-- PatchedConic construction (lines 31-133): raises the elliptical-arrival
precondition error exactly when arrive.a <= 0 (lines 67-68), and otherwise
yields the fully computed object. -/
def mkPatchedConic (d a : OrbitState) (lam1 rf : ℝ) : Except PCErr PCState :=
  if a.a ≤ 0 then Except.error PCErr.notElliptical
  else Except.ok (pcBuild d a lam1 rf)

/-- Modelled from the spec: the external Orbit constructor from
(mu, r, v, phi) (spec sections 3 and 4.1), deriving the standard two-body
elements: semimajor axis from the vis-viva relation, angular momentum
r v cos(phi), eccentricity and anomaly cosines from the conic equation. -/
def orbitFrom (mu r v phi : ℝ) : OrbitState :=
  { mu := mu
    r := r
    v := v
    phi := phi
    e := Real.sqrt (1 - (r * v * Real.cos phi) ^ 2 / mu / (1 / (2 / r - v ^ 2 / mu)))
    a := 1 / (2 / r - v ^ 2 / mu)
    cos_E := (1 - r * (2 / r - v ^ 2 / mu)) / Real.sqrt (1 - (r * v * Real.cos phi) ^ 2 / mu / (1 / (2 / r - v ^ 2 / mu)))
    cos_nu := ((r * v * Real.cos phi) ^ 2 / mu / r - 1) / Real.sqrt (1 - (r * v * Real.cos phi) ^ 2 / mu / (1 / (2 / r - v ^ 2 / mu)))
    h := r * v * Real.cos phi }

/-- The squared speed at radius rt on the conic of o, from energy
conservation; negative exactly when rt is unreachable. -/
def vsq (o : OrbitState) (rt : ℝ) : ℝ := o.v ^ 2 + 2 * o.mu * (1 / rt - 1 / o.r)

/-- Modelled from the spec: the payload of OrbitState.at(rt, +) when rt is
reachable: same conic (mu, e, a, h preserved), speed from energy
conservation, flight-path angle from angular-momentum conservation, anomaly
cosines from the conic equation. -/
def atState (o : OrbitState) (rt : ℝ) : OrbitState :=
  { mu := o.mu
    r := rt
    v := Real.sqrt (vsq o rt)
    phi := Real.arccos (o.h / (rt * Real.sqrt (vsq o rt)))
    e := o.e
    a := o.a
    cos_E := (1 - rt / o.a) / o.e
    cos_nu := (o.a * (1 - o.e ^ 2) / rt - 1) / o.e
    h := o.h }

/-- Modelled from the spec: OrbitState.at(rt, +), which fails (non-finite
speed, NaN) exactly when the radius is unreachable, i.e. when the squared
speed from energy conservation is negative. -/
def atRadius (o : OrbitState) (rt : ℝ) : Option OrbitState :=
  if vsq o rt < 0 then none else some (atState o rt)

/-- The defining scalars of a solution: departure radius, departure speed,
departure flight-path angle, arrival phase angle, target final radius
(the tuple form accepted by init_patched_conic, line 322). -/
structure PCTuple where
  r0 : ℝ
  v0 : ℝ
  phi0 : ℝ
  lam1 : ℝ
  rf : ℝ

/-- Extraction of the defining tuple from a PatchedConic object (line 322). -/
def tupleOf (pc : PCState) : PCTuple :=
  ⟨pc.depart.r, pc.depart.v, pc.depart.phi, pc.lam1, pc.rf⟩

/-- The geocentric SOI-intercept radius by the law of cosines (line 331). -/
def r1Of (lam1 : ℝ) : ℝ :=
  Real.sqrt (D ^ 2 + r_soi ^ 2 - 2 * D * r_soi * Real.cos lam1)

/-- init_patched_conic (lines 316-339) on the explicit tuple: perturb the
design variables by dx = (dlam1, dv0), rebuild the departure orbit at mu_earth,
seek the SOI-intercept state at the recomputed radius, fail if that radius is
unreachable, and otherwise hand the new pair to the PatchedConic constructor
(whose own precondition error propagates). -/
def init_patched_conic (t : PCTuple) (dx : ℝ × ℝ) : Except PCErr PCState :=
  match atRadius (orbitFrom mu_earth t.r0 (t.v0 + dx.2) t.phi0) (r1Of (t.lam1 + dx.1)) with
  | none => Except.error PCErr.radiusNotReached
  | some intercept =>
      mkPatchedConic (orbitFrom mu_earth t.r0 (t.v0 + dx.2) t.phi0) intercept
        (t.lam1 + dx.1) t.rf

/-- init_patched_conic entered with a PatchedConic object (the type-check
branch of line 321 extracts the defining tuple first). -/
def init_patched_conic_state (pc : PCState) (dx : ℝ × ℝ) : Except PCErr PCState :=
  init_patched_conic (tupleOf pc) dx

/-- The SGRA optimizer configuration (lines 355-365). -/
structure SGRA where
  gtol : ℝ
  ftol : ℝ
  Qtol : ℝ
  alphatol : ℝ
  beta0 : ℝ

/-- The default SGRA configuration (lines 356-360). -/
def SGRA.default : SGRA := ⟨5e-8, 1e-15, 2e-15, 1e-6, 1⟩

/-- The loop body of SGRA.optimize_v0 (lines 382-421), with the remaining
iteration budget as fuel and the current damping factor beta threaded through.
The first component collects the yielded (accepted) states in order; the
second counts the init_patched_conic calls made.  The generator has no
failure channel: init_patched_conic errors are caught and answered by halving
beta, and exhausting the budget just ends the sequence. -/
def optimize_v0_aux (s : SGRA) : ℕ → ℝ → PCState → List PCState × ℕ
  | 0, _, _ => ([], 0)
  | Nat.succ n, beta, x =>
    if |x.g| ≤ s.gtol then ([], 0)
    else
      match init_patched_conic_state x (0, -beta * (x.g / x.dg_dv0)) with
      | Except.ok xt =>
        if |xt.g| < |x.g| then
          (xt :: (optimize_v0_aux s n s.beta0 xt).1, (optimize_v0_aux s n s.beta0 xt).2 + 1)
        else
          ((optimize_v0_aux s n (beta / 2) x).1, (optimize_v0_aux s n (beta / 2) x).2 + 1)
      | Except.error _ =>
        ((optimize_v0_aux s n (beta / 2) x).1, (optimize_v0_aux s n (beta / 2) x).2 + 1)

/-- SGRA.optimize_v0: run the restoration loop from solution_x with the given
iteration budget, starting from the configured initial damping factor. -/
def optimize_v0 (s : SGRA) (x : PCState) (maxIterations : ℕ) : List PCState × ℕ :=
  optimize_v0_aux s maxIterations s.beta0 x

/-! NaN-tracking variants of the inverse-trig calls of __init__, for the
domain-safety claim: numpy arccos and arcsin return NaN (here: none) on an
argument outside [-1, 1] instead of raising. -/

/-- numpy arccos with explicit NaN tracking. -/
def acosN (x : ℝ) : Option ℝ :=
  if -1 ≤ x ∧ x ≤ 1 then some (Real.arccos x) else none

/-- numpy arcsin with explicit NaN tracking. -/
def asinN (x : ℝ) : Option ℝ :=
  if -1 ≤ x ∧ x ≤ 1 then some (Real.arcsin x) else none

/-- The E0 computation of line 58 with NaN tracking: the arccos argument
depart.cos_E is passed unclipped. -/
def E0N (d : OrbitState) : Option ℝ := acosN d.cos_E

/-- The gam1 computation of lines 80-81 with NaN tracking: the arcsin
argument is clipped to [-1, 1] first. -/
def gam1N (a : OrbitState) (lam1 : ℝ) : Option ℝ := asinN (sg1Of a lam1)

/-- The eps2 computation of lines 96-97 with NaN tracking: the arcsin
argument is clipped to [-1, 1] first. -/
def eps2N (a : OrbitState) (lam1 : ℝ) : Option ℝ := asinN (seps2Of a lam1)

/-! Concrete states used by the witnesses and counterexamples. -/

/-- An all-zero orbit state (the optimizer treats its input as opaque data,
so any record with the right fields is a valid starting object). -/
def o0 : OrbitState :=
  { mu := 0, r := 0, v := 0, phi := 0, e := 0, a := 0, cos_E := 0, cos_nu := 0, h := 0 }

/-- An all-zero PatchedConic record, used as a base for concrete optimizer
inputs. -/
def pc0 : PCState :=
  { depart := o0, arrive := o0, lam1 := 0, rf := 0, r := 0, v := 0, phi := 0
    eps := 0, Q := 0, vf := 0, gam0 := 0, E0 := 0, nu0 := 0, t0 := 0, gam1 := 0
    E1 := 0, nu1 := 0, t1 := 0, ef := 0, af := 0, rpl := 0, vpl := 0
    dv1_dv0 := 0, dphi1_dv0 := 0, dv2_dv0 := 0, dphi2_dv1 := 0, dphi2_dphi1 := 0
    dphi2_dv0 := 0, def_dv2 := 0, def_dphi2 := 0, def_dv0 := 0, daf_dv0 := 0
    drpl_daf := 0, drpl_def := 0, drpl_dv0 := 0, x := (0, 0), deltav1 := 0
    deltav2 := 0, dv1_dlam1 := 0, dphi1_dlam1 := 0, dgam1_dlam1 := 0
    dv2_dlam1 := 0, dphi2_dgam1 := 0, dphi2_dlam1 := 0, dQ2_dlam1 := 0
    daf_dQ2 := 0, def_dQ2 := 0, daf_dlam1 := 0, def_dlam1 := 0, drpl_dlam1 := 0
    dg_drpl := 0, dg_dlam1 := 0, dg_dv0 := 0, ddeltav2_dvpl := 0, dvpl_daf := 0
    dvpl_def := 0, ddeltav2_def := 0, ddeltav2_daf := 0, dvpl_dlam1 := 0
    ddeltav2_dlam1 := 0, df_dlam1 := 0, ddeltav1_dv0 := 0, dvpl_dv0 := 0
    ddeltav2_dv0 := 0, df_dv0 := 0, f := 0, df_dx := (0, 0), dg_dx := (0, 0)
    g := 0, lam := 0, P := 0, dF_dx := (0, 0), F := 0, Q_opt := 0 }

/-- A starting state with nonzero constraint and constraint derivative. -/
def pcStall : PCState := { pc0 with g := 5, dg_dv0 := 3 }

/-- A concrete departure state for the construction counterexamples. -/
def dep3 : OrbitState :=
  { mu := mu_earth, r := 1, v := 1, phi := 0, e := 0, a := 1, cos_E := 1, cos_nu := 1, h := 0 }

/-- A concrete arrival state chosen so that the velocity triangle collapses:
phi = 0 and lam1 = 0 give gam1 = 0, and v = V + 1 gives selenocentric entry
speed v2 = 1. -/
def arr3 : OrbitState :=
  { mu := mu_earth, r := D, v := V + 1, phi := 0, e := 0, a := 1, cos_E := 1, cos_nu := 1, h := 1 }

/-- An orbit state whose eccentric-anomaly cosine sits marginally outside the
arccos domain, as accumulated floating error can produce. -/
def oBad : OrbitState := { o0 with cos_E := 1 + 1 / 1000000000000 }

/-- A concrete base tuple on which the factory succeeds: an elliptical
departure orbit at radius 7e6 m with speed 10650 m/s (just below escape)
that still reaches the SOI-intercept radius at phase angle pi/2. -/
def t6 : PCTuple := ⟨7000000, 10650, 0, Real.pi / 2, 1837000⟩

/-- A concrete base tuple whose departure conic is hyperbolic (a < 0) but
reaches the intercept radius with finite speed: speed 20000 m/s at radius
7e6 m. -/
def t8 : PCTuple := ⟨7000000, 20000, 0, 0, 1837000⟩

/-- The PatchedConic state the factory builds from t6 with zero
perturbation. -/
def pc6 : PCState :=
  pcBuild (orbitFrom mu_earth t6.r0 (t6.v0 + 0) t6.phi0)
    (atState (orbitFrom mu_earth t6.r0 (t6.v0 + 0) t6.phi0) (r1Of (t6.lam1 + 0)))
    (t6.lam1 + 0) t6.rf

/-- One accepted step of the restoration loop: the successor is produced by
the factory from its predecessor with the phase angle untouched and the
departure speed perturbed by the damped Newton step for some damping factor
beta0 / 2^k, its constraint magnitude strictly improves, and lam1 and rf are
preserved. -/
def sgraStep (s : SGRA) (a b : PCState) : Prop :=
  |b.g| < |a.g| ∧ b.lam1 = a.lam1 ∧ b.rf = a.rf ∧
    ∃ k : ℕ,
      init_patched_conic_state a (0, -(s.beta0 / 2 ^ k) * (a.g / a.dg_dv0)) = Except.ok b

end

/-! Theorems.  Each claim of the specification is settled below; helper
lemmas are shared, claim-level theorems are not. -/

section Lemmas

/-- Characterization of a successful PatchedConic construction. -/
theorem mk_ok_iff {d a : OrbitState} {lam1 rf : ℝ} {pc : PCState} :
    mkPatchedConic d a lam1 rf = Except.ok pc ↔
      ¬ a.a ≤ 0 ∧ pc = pcBuild d a lam1 rf := by
  unfold mkPatchedConic
  by_cases h : a.a ≤ 0 <;> simp [h, eq_comm]

/-- Characterization of a successful factory call. -/
theorem init_ok_iff {t : PCTuple} {dx : ℝ × ℝ} {pc : PCState} :
    init_patched_conic t dx = Except.ok pc ↔
      ¬ vsq (orbitFrom mu_earth t.r0 (t.v0 + dx.2) t.phi0) (r1Of (t.lam1 + dx.1)) < 0 ∧
      ¬ (atState (orbitFrom mu_earth t.r0 (t.v0 + dx.2) t.phi0) (r1Of (t.lam1 + dx.1))).a ≤ 0 ∧
      pc = pcBuild (orbitFrom mu_earth t.r0 (t.v0 + dx.2) t.phi0)
        (atState (orbitFrom mu_earth t.r0 (t.v0 + dx.2) t.phi0) (r1Of (t.lam1 + dx.1)))
        (t.lam1 + dx.1) t.rf := by
  unfold init_patched_conic atRadius mkPatchedConic
  by_cases hw : vsq (orbitFrom mu_earth t.r0 (t.v0 + dx.2) t.phi0) (r1Of (t.lam1 + dx.1)) < 0
  · simp [hw]
  · by_cases ha :
      (atState (orbitFrom mu_earth t.r0 (t.v0 + dx.2) t.phi0) (r1Of (t.lam1 + dx.1))).a ≤ 0 <;>
      simp [hw, ha, eq_comm]

/-- A successful factory call perturbs lam1 by the first perturbation
component and preserves rf. -/
theorem init_state_ok_fields {p : PCState} {dx : ℝ × ℝ} {q : PCState}
    (h : init_patched_conic_state p dx = Except.ok q) :
    q.lam1 = p.lam1 + dx.1 ∧ q.rf = p.rf := by
  rcases init_ok_iff.mp h with ⟨-, -, rfl⟩
  exact ⟨rfl, rfl⟩

/-- The moon-to-earth mass-parameter ratio is positive. -/
theorem mu_ratio_pos : 0 < mu_moon / mu_earth := by norm_num [mu_moon, mu_earth]

/-- The moon-to-earth mass-parameter ratio is at most one. -/
theorem mu_ratio_le_one : mu_moon / mu_earth ≤ 1 := by norm_num [mu_moon, mu_earth]

/-- The SOI radius is positive. -/
theorem r_soi_pos : 0 < r_soi := by
  show 0 < (mu_moon / mu_earth) ^ (0.4 : ℝ) * D
  exact mul_pos (Real.rpow_pos_of_pos mu_ratio_pos _) (by norm_num [D])

/-- The SOI radius is at most the earth--moon distance. -/
theorem r_soi_le_D : r_soi ≤ D := by
  show (mu_moon / mu_earth) ^ (0.4 : ℝ) * D ≤ D
  have h := Real.rpow_le_one mu_ratio_pos.le mu_ratio_le_one (by norm_num : (0:ℝ) ≤ 0.4)
  calc (mu_moon / mu_earth) ^ (0.4 : ℝ) * D ≤ 1 * D :=
        mul_le_mul_of_nonneg_right h (by norm_num [D])
    _ = D := one_mul D

/-- A concrete lower bound on the SOI radius: at least a tenth of the
earth--moon distance. -/
theorem r_soi_lb : (38440200 : ℝ) ≤ r_soi := by
  show (38440200 : ℝ) ≤ (mu_moon / mu_earth) ^ (0.4 : ℝ) * D
  have h1 : (mu_moon / mu_earth) ^ (1 / 2 : ℝ) ≤ (mu_moon / mu_earth) ^ (0.4 : ℝ) :=
    Real.rpow_le_rpow_of_exponent_ge mu_ratio_pos mu_ratio_le_one (by norm_num)
  have h2 : (0.1 : ℝ) ≤ (mu_moon / mu_earth) ^ (1 / 2 : ℝ) := by
    rw [← Real.sqrt_eq_rpow, Real.le_sqrt (by norm_num) mu_ratio_pos.le]
    norm_num [mu_moon, mu_earth]
  calc (38440200 : ℝ) = 0.1 * D := by norm_num [D]
    _ ≤ (mu_moon / mu_earth) ^ (0.4 : ℝ) * D :=
        mul_le_mul_of_nonneg_right (h2.trans h1) (by norm_num [D])

/-- On the degenerate arrival state arr3 with lam1 = 0 the arrival phase
angle vanishes. -/
theorem arr3_gam1 : gam1Of arr3 0 = 0 := by
  rw [gam1Of, sg1Of, Real.sin_zero, mul_zero, clip,
    max_eq_left (by norm_num), min_eq_left (by norm_num)]
  exact Real.arcsin_zero

/-- On arr3 with lam1 = 0 the selenocentric entry speed is exactly 1. -/
theorem arr3_v2 : v2Of arr3 0 = 1 := by
  rw [v2Of, arr3_gam1]
  have hphi : arr3.phi = 0 := rfl
  have hv : arr3.v = V + 1 := rfl
  rw [hphi, hv, sub_zero, Real.cos_zero,
    show (V + 1) ^ 2 + V ^ 2 - 2 * (V + 1) * V * 1 = 1 by ring]
  exact Real.sqrt_one

/-- On arr3 with lam1 = 0 the selenocentric flight-path angle vanishes. -/
theorem arr3_phi2 : phi2Of arr3 0 = 0 := by
  rw [phi2Of, arr3_gam1]
  have hphi : arr3.phi = 0 := rfl
  rw [hphi]
  norm_num

/-- On arr3 with lam1 = 0 the energy ratio is r_soi / mu_moon. -/
theorem arr3_Q : Q2Of arr3 0 = r_soi / mu_moon := by
  rw [Q2Of, arr3_v2, one_pow, mul_one]

/-- The energy ratio of the degenerate case is positive. -/
theorem q_pos : 0 < r_soi / mu_moon := div_pos r_soi_pos (by norm_num [mu_moon])

/-- The energy ratio of the degenerate case is below one. -/
theorem q_lt_one : r_soi / mu_moon < 1 := by
  rw [div_lt_one (by norm_num [mu_moon])]
  exact lt_of_le_of_lt r_soi_le_D (by norm_num [D, mu_moon])

/-- On arr3 with lam1 = 0 the lunar-hyperbola eccentricity is 1 - Q. -/
theorem arr3_ef : efOf arr3 0 = 1 - r_soi / mu_moon := by
  rw [efOf, arr3_Q, arr3_phi2, Real.cos_zero, one_pow, mul_one,
    show 1 + r_soi / mu_moon * (r_soi / mu_moon - 2) = (1 - r_soi / mu_moon) ^ 2 by ring]
  exact Real.sqrt_sq (by linarith [q_lt_one])

/-- On the degenerate case the perilune speed is strictly below the circular
speed at the target radius rf = 1, so the insertion term vpl - vf is
negative. -/
theorem arr3_vpl_lt_vf : vplOf arr3 0 < vfOf 1 := by
  have hq0 := q_pos
  have hq1 := q_lt_one
  have hm : (0:ℝ) < mu_moon := by norm_num [mu_moon]
  have hs : (0:ℝ) < r_soi := r_soi_pos
  set q := r_soi / mu_moon with hqdef
  have h2q : (0:ℝ) < 2 - q := by linarith
  have dpos : (0:ℝ) < r_soi / (2 - q) * q := mul_pos (div_pos hs h2q) hq0
  have hA : vplOf arr3 0 = Real.sqrt (mu_moon * (2 - q) / (r_soi / (2 - q) * q)) := by
    rw [vplOf, arr3_ef, afOf, arr3_Q]
    congr 1
    ring
  have hr2 : mu_moon * 4 ≤ r_soi ^ 2 := by
    have hpow : (38440200 : ℝ) ^ 2 ≤ r_soi ^ 2 :=
      pow_le_pow_left (by norm_num) r_soi_lb 2
    calc mu_moon * 4 ≤ (38440200 : ℝ) ^ 2 := by norm_num [mu_moon]
      _ ≤ r_soi ^ 2 := hpow
  have hkey : mu_moon * ((2 - q) * (2 - q)) < r_soi ^ 2 := by
    have h4 : (2 - q) * (2 - q) < 4 := by nlinarith
    calc mu_moon * ((2 - q) * (2 - q)) < mu_moon * 4 := by nlinarith
      _ ≤ r_soi ^ 2 := hr2
  have hmuq : mu_moon * q = r_soi := by
    rw [hqdef]
    field_simp
  have hden : mu_moon * (r_soi / (2 - q) * q) = r_soi ^ 2 / (2 - q) := by
    calc mu_moon * (r_soi / (2 - q) * q) = mu_moon * q * (r_soi / (2 - q)) := by ring
      _ = r_soi * (r_soi / (2 - q)) := by rw [hmuq]
      _ = r_soi ^ 2 / (2 - q) := by rw [sq, mul_div_assoc]
  have hlt : mu_moon * (2 - q) / (r_soi / (2 - q) * q) < mu_moon / 1 := by
    rw [div_one, div_lt_iff dpos, hden, lt_div_iff h2q]
    nlinarith [hkey]
  calc vplOf arr3 0 = Real.sqrt (mu_moon * (2 - q) / (r_soi / (2 - q) * q)) := hA
    _ < Real.sqrt (mu_moon / 1) :=
        Real.sqrt_lt_sqrt (le_of_lt (div_pos (mul_pos hm h2q) dpos)) hlt
    _ = vfOf 1 := rfl

/-- The t8 departure conic reaches the intercept radius: the squared
intercept speed is nonnegative. -/
theorem t8_reach :
    ¬ vsq (orbitFrom mu_earth t8.r0 (t8.v0 + (0:ℝ)) t8.phi0)
        (r1Of (t8.lam1 + (0:ℝ))) < 0 := by
  rw [not_lt]
  set r1 := r1Of (t8.lam1 + (0:ℝ)) with hr1def
  have hr1 : 0 ≤ r1 := by rw [hr1def, r1Of]; exact Real.sqrt_nonneg _
  have hinv : (0:ℝ) ≤ 1 / r1 := one_div_nonneg.mpr hr1
  show (0:ℝ) ≤ (t8.v0 + 0) ^ 2 + 2 * mu_earth * (1 / r1 - 1 / t8.r0)
  have hv : t8.v0 + (0:ℝ) = 20000 := by norm_num [t8]
  have hr0 : t8.r0 = (7000000:ℝ) := rfl
  have hme : mu_earth = (398600441800000:ℝ) := by norm_num [mu_earth]
  rw [hv, hr0, hme]
  nlinarith [hinv]

/-- The t8 departure conic is hyperbolic: its semimajor axis is negative,
so the constructed intercept state fails the elliptical precondition. -/
theorem t8_hyperbolic :
    (atState (orbitFrom mu_earth t8.r0 (t8.v0 + (0:ℝ)) t8.phi0)
      (r1Of (t8.lam1 + (0:ℝ)))).a ≤ 0 := by
  show (1 / (2 / t8.r0 - (t8.v0 + 0) ^ 2 / mu_earth) : ℝ) ≤ 0
  norm_num [t8, mu_earth]

/-- At phase angle pi / 2 the intercept radius is sqrt(D^2 + r_soi^2). -/
theorem t6_r1_sq : r1Of (t6.lam1 + (0:ℝ)) = Real.sqrt (D ^ 2 + r_soi ^ 2) := by
  have hl : t6.lam1 + (0:ℝ) = Real.pi / 2 := by
    rw [show t6.lam1 = Real.pi / 2 from rfl, add_zero]
  rw [r1Of, hl, Real.cos_pi_div_two, mul_zero, sub_zero]

/-- The t6 intercept radius is at least the earth--moon distance. -/
theorem t6_r1_lb : D ≤ r1Of (t6.lam1 + (0:ℝ)) := by
  rw [t6_r1_sq]
  calc D = Real.sqrt (D ^ 2) := (Real.sqrt_sq (by norm_num [D])).symm
    _ ≤ Real.sqrt (D ^ 2 + r_soi ^ 2) :=
        Real.sqrt_le_sqrt (by nlinarith [sq_nonneg r_soi])

/-- The t6 intercept radius is at most 5.44e8 m. -/
theorem t6_r1_ub : r1Of (t6.lam1 + (0:ℝ)) ≤ 544000000 := by
  rw [t6_r1_sq]
  have h1 : r_soi ^ 2 ≤ D ^ 2 := pow_le_pow_left r_soi_pos.le r_soi_le_D 2
  have h2 : D ^ 2 + r_soi ^ 2 ≤ (544000000:ℝ) ^ 2 := by
    have hD : D ^ 2 = (147764897604000000:ℝ) := by norm_num [D]
    rw [hD] at h1 ⊢
    nlinarith [h1]
  calc Real.sqrt (D ^ 2 + r_soi ^ 2) ≤ Real.sqrt ((544000000:ℝ) ^ 2) :=
        Real.sqrt_le_sqrt h2
    _ = 544000000 := Real.sqrt_sq (by norm_num)

/-- The t6 departure orbit reaches the intercept radius: the squared
intercept speed is nonnegative. -/
theorem t6_reach :
    ¬ vsq (orbitFrom mu_earth t6.r0 (t6.v0 + (0:ℝ)) t6.phi0)
        (r1Of (t6.lam1 + (0:ℝ))) < 0 := by
  rw [not_lt]
  set r1 := r1Of (t6.lam1 + (0:ℝ)) with hr1def
  have hpos : (0:ℝ) < r1 := lt_of_lt_of_le (by norm_num [D]) t6_r1_lb
  have hinv : (1 / 544000000 : ℝ) ≤ 1 / r1 := one_div_le_one_div_of_le hpos t6_r1_ub
  show (0:ℝ) ≤ (t6.v0 + 0) ^ 2 + 2 * mu_earth * (1 / r1 - 1 / t6.r0)
  have hv : t6.v0 + (0:ℝ) = 10650 := by norm_num [t6]
  have hr0 : t6.r0 = (7000000:ℝ) := rfl
  have hme : mu_earth = (398600441800000:ℝ) := by norm_num [mu_earth]
  rw [hv, hr0, hme]
  nlinarith [hinv]

/-- The t6 departure orbit is elliptical: its semimajor axis is positive. -/
theorem t6_elliptical :
    ¬ (atState (orbitFrom mu_earth t6.r0 (t6.v0 + (0:ℝ)) t6.phi0)
        (r1Of (t6.lam1 + (0:ℝ)))).a ≤ 0 := by
  show ¬ (1 / (2 / t6.r0 - (t6.v0 + 0) ^ 2 / mu_earth) : ℝ) ≤ 0
  norm_num [t6, mu_earth]

end Lemmas

section Claims

/-- C1: for every PatchedConic constructed from a departure and arrival
OrbitState with arrival semimajor axis > 0, the lunar-hyperbola quantities
satisfy the closed-form conic relations Q = r_soi v2^2 / mu_moon,
ef = sqrt(1 + Q (Q - 2) cos(phi2)^2), af = r_soi / (2 - Q),
rpl = af (1 - ef) and vpl = sqrt(mu_moon (1 + ef) / (af (1 - ef))). -/
theorem C1_hyperbola_relations (d a : OrbitState) (lam1 rf : ℝ) (pc : PCState)
    (h : mkPatchedConic d a lam1 rf = Except.ok pc) :
    pc.Q = r_soi * pc.v ^ 2 / mu_moon ∧
    pc.ef = Real.sqrt (1 + pc.Q * (pc.Q - 2) * Real.cos pc.phi ^ 2) ∧
    pc.af = r_soi / (2 - pc.Q) ∧
    pc.rpl = pc.af * (1 - pc.ef) ∧
    pc.vpl = Real.sqrt (mu_moon * (1 + pc.ef) / (pc.af * (1 - pc.ef))) := by
  rcases mk_ok_iff.mp h with ⟨-, rfl⟩
  exact ⟨rfl, rfl, rfl, rfl, rfl⟩

/-- Witness for C1: the construction succeeds on the concrete pair
(dep3, arr3) and the conic relations hold there. -/
theorem C1_hyperbola_relations_witness :
    mkPatchedConic dep3 arr3 0 1 = Except.ok (pcBuild dep3 arr3 0 1) ∧
    ((pcBuild dep3 arr3 0 1).Q = r_soi * (pcBuild dep3 arr3 0 1).v ^ 2 / mu_moon ∧
     (pcBuild dep3 arr3 0 1).ef =
       Real.sqrt (1 + (pcBuild dep3 arr3 0 1).Q * ((pcBuild dep3 arr3 0 1).Q - 2) *
         Real.cos (pcBuild dep3 arr3 0 1).phi ^ 2) ∧
     (pcBuild dep3 arr3 0 1).af = r_soi / (2 - (pcBuild dep3 arr3 0 1).Q) ∧
     (pcBuild dep3 arr3 0 1).rpl =
       (pcBuild dep3 arr3 0 1).af * (1 - (pcBuild dep3 arr3 0 1).ef) ∧
     (pcBuild dep3 arr3 0 1).vpl =
       Real.sqrt (mu_moon * (1 + (pcBuild dep3 arr3 0 1).ef) /
         ((pcBuild dep3 arr3 0 1).af * (1 - (pcBuild dep3 arr3 0 1).ef)))) := by
  have h : mkPatchedConic dep3 arr3 0 1 = Except.ok (pcBuild dep3 arr3 0 1) :=
    mk_ok_iff.mpr ⟨by norm_num [arr3], rfl⟩
  exact ⟨h, C1_hyperbola_relations dep3 arr3 0 1 _ h⟩

/-- C2: for every constructed PatchedConic the terminal sensitivity outputs
satisfy lam = -(dgdx . dgdx)^(-1) (dgdx . dfdx), dF_dx = df_dx + lam dg_dx,
F = f + lam g, and Q_opt is the squared norm of dF_dx. -/
theorem C2_terminal_sensitivities (d a : OrbitState) (lam1 rf : ℝ) :
    (pcBuild d a lam1 rf).lam =
      -(((pcBuild d a lam1 rf).dg_dx.1 * (pcBuild d a lam1 rf).dg_dx.1 +
         (pcBuild d a lam1 rf).dg_dx.2 * (pcBuild d a lam1 rf).dg_dx.2)⁻¹ *
        ((pcBuild d a lam1 rf).dg_dx.1 * (pcBuild d a lam1 rf).df_dx.1 +
         (pcBuild d a lam1 rf).dg_dx.2 * (pcBuild d a lam1 rf).df_dx.2)) ∧
    (pcBuild d a lam1 rf).dF_dx =
      ((pcBuild d a lam1 rf).df_dx.1 +
         (pcBuild d a lam1 rf).lam * (pcBuild d a lam1 rf).dg_dx.1,
       (pcBuild d a lam1 rf).df_dx.2 +
         (pcBuild d a lam1 rf).lam * (pcBuild d a lam1 rf).dg_dx.2) ∧
    (pcBuild d a lam1 rf).F =
      (pcBuild d a lam1 rf).f + (pcBuild d a lam1 rf).lam * (pcBuild d a lam1 rf).g ∧
    (pcBuild d a lam1 rf).Q_opt =
      (pcBuild d a lam1 rf).dF_dx.1 ^ 2 + (pcBuild d a lam1 rf).dF_dx.2 ^ 2 := by
  refine ⟨?_, ?_, ?_, ?_⟩
  · show lamOf d a lam1 =
      -((dg_dlam1Of d a lam1 * dg_dlam1Of d a lam1 +
          dg_dv0Of d a lam1 * dg_dv0Of d a lam1)⁻¹ *
        (dg_dlam1Of d a lam1 * df_dlam1Of d a lam1 +
          dg_dv0Of d a lam1 * df_dv0Of d a lam1))
    rw [lamOf, one_div]
  · show (dF1Of d a lam1, dF2Of d a lam1) =
      (df_dlam1Of d a lam1 + lamOf d a lam1 * dg_dlam1Of d a lam1,
       df_dv0Of d a lam1 + lamOf d a lam1 * dg_dv0Of d a lam1)
    rw [dF1Of, dF2Of, mul_comm (dg_dlam1Of d a lam1), mul_comm (dg_dv0Of d a lam1)]
  · show FOf d a lam1 rf = fOf d a lam1 rf + lamOf d a lam1 * gOf a lam1 rf
    rw [FOf, mul_comm]
  · show Q_optOf d a lam1 = dF1Of d a lam1 ^ 2 + dF2Of d a lam1 ^ 2
    rw [Q_optOf, sq, sq]

/-- C7: construction fails with the precondition error exactly when the
arrival orbit is not elliptical (semimajor axis at most zero); for an
elliptical arrival the fully computed object is returned. -/
theorem C7_elliptical_precondition (d a : OrbitState) (lam1 rf : ℝ) :
    (mkPatchedConic d a lam1 rf = Except.error PCErr.notElliptical ↔ a.a ≤ 0) ∧
    (mkPatchedConic d a lam1 rf = Except.ok (pcBuild d a lam1 rf) ↔ 0 < a.a) := by
  constructor
  · unfold mkPatchedConic
    by_cases h : a.a ≤ 0 <;> simp [h]
  · rw [mk_ok_iff]
    exact ⟨fun h => not_le.mp h.1, fun h => ⟨not_le.mpr h, rfl⟩⟩

/-- The yielded sequence of the restoration loop never exceeds the fuel. -/
theorem optimize_v0_aux_length (s : SGRA) :
    ∀ (n : ℕ) (beta : ℝ) (x : PCState),
      (optimize_v0_aux s n beta x).1.length ≤ n := by
  intro n
  induction n with
  | zero => intro beta x; simp [optimize_v0_aux]
  | succ n ih =>
    intro beta x
    rw [optimize_v0_aux]
    by_cases hg : |x.g| ≤ s.gtol
    · simp [hg]
    · rw [if_neg hg]
      cases hcall : init_patched_conic_state x (0, -beta * (x.g / x.dg_dv0)) with
      | ok xt =>
        by_cases hlt : |xt.g| < |x.g|
        · simpa [hlt] using Nat.succ_le_succ (ih s.beta0 xt)
        · simpa [hlt] using Nat.le_succ_of_le (ih (beta / 2) x)
      | error e =>
        simpa using Nat.le_succ_of_le (ih (beta / 2) x)

/-- C10: when the starting constraint already meets the tolerance,
optimize_v0 yields nothing and never calls the factory; and in general the
yielded sequence has at most max_iterations states. -/
theorem C10_early_exit_and_budget (s : SGRA) (x : PCState) (n : ℕ) :
    (|x.g| ≤ s.gtol → optimize_v0 s x n = ([], 0)) ∧
    (optimize_v0 s x n).1.length ≤ n := by
  constructor
  · intro h
    cases n with
    | zero => rfl
    | succ n => rw [optimize_v0, optimize_v0_aux, if_pos h]
  · exact optimize_v0_aux_length s n s.beta0 x

/-- Witness for C10 at a concrete state with zero constraint. -/
theorem C10_early_exit_and_budget_witness :
    |pc0.g| ≤ SGRA.default.gtol ∧
    optimize_v0 SGRA.default pc0 5 = ([], 0) ∧
    (optimize_v0 SGRA.default pc0 5).1.length ≤ 5 := by
  have h : |pc0.g| ≤ SGRA.default.gtol := by
    norm_num [pc0, SGRA.default]
  exact ⟨h, (C10_early_exit_and_budget SGRA.default pc0 5).1 h,
    (C10_early_exit_and_budget SGRA.default pc0 5).2⟩

/-- C5 counterexample: a starting state with nonzero constraint and nonzero
constraint derivative whose constraint magnitude exceeds the configured
tolerance, on which optimize_v0 exhausts its iteration budget and returns
normally with no yielded state and no error of any kind, contradicting the
claim that budget exhaustion without reaching tolerance is explicitly
reported. -/
theorem C5_counterexample :
    pcStall.g ≠ 0 ∧ pcStall.dg_dv0 ≠ 0 ∧
    ¬ |pcStall.g| ≤ SGRA.default.gtol ∧
    optimize_v0 SGRA.default pcStall 0 = ([], 0) := by
  refine ⟨?_, ?_, ?_, rfl⟩ <;> norm_num [pcStall, pc0, SGRA.default]

/-- C5 (amended): optimize_v0 has no failure channel at all; when the
iteration budget is exhausted with the constraint still unmet it simply
stops yielding and returns, reporting neither an iteration-limit nor an
underflow failure. -/
theorem C5_amended_silent_exhaustion (s : SGRA) (x : PCState)
    (hg : x.g ≠ 0) (hd : x.dg_dv0 ≠ 0) (htol : s.gtol < |x.g|) :
    optimize_v0 s x 0 = ([], 0) := rfl

/-- Witness for the amended C5 at the concrete stalled state. -/
theorem C5_amended_silent_exhaustion_witness :
    pcStall.g ≠ 0 ∧ pcStall.dg_dv0 ≠ 0 ∧ SGRA.default.gtol < |pcStall.g| ∧
    optimize_v0 SGRA.default pcStall 0 = ([], 0) := by
  have h1 : pcStall.g ≠ 0 := by norm_num [pcStall, pc0]
  have h2 : pcStall.dg_dv0 ≠ 0 := by norm_num [pcStall, pc0]
  have h3 : SGRA.default.gtol < |pcStall.g| := by norm_num [pcStall, pc0, SGRA.default]
  exact ⟨h1, h2, h3, C5_amended_silent_exhaustion SGRA.default pcStall h1 h2 h3⟩

/-- C3 counterexample: a constructed PatchedConic (degenerate but legal
arrival geometry, target radius rf = 1 m) on which the perilune speed is
below the circular speed at rf, so the insertion term vpl - vf is negative
and the cost f differs from the claimed sum of absolute values: the code
computes deltav2 = vpl - vf with no absolute value (line 199). -/
theorem C3_counterexample :
    mkPatchedConic dep3 arr3 0 1 = Except.ok (pcBuild dep3 arr3 0 1) ∧
    (pcBuild dep3 arr3 0 1).f ≠
      |(pcBuild dep3 arr3 0 1).depart.v -
        Real.sqrt (mu_earth / (pcBuild dep3 arr3 0 1).depart.r)| +
      |(pcBuild dep3 arr3 0 1).vpl - (pcBuild dep3 arr3 0 1).vf| := by
  refine ⟨mk_ok_iff.mpr ⟨by norm_num [arr3], rfl⟩, ?_⟩
  show fOf dep3 arr3 0 1 ≠
    |dep3.v - Real.sqrt (mu_earth / dep3.r)| + |vplOf arr3 0 - vfOf 1|
  rw [fOf, deltav1Of, deltav2Of]
  have hmu : dep3.mu = mu_earth := rfl
  rw [hmu]
  have hz : vplOf arr3 0 - vfOf 1 < |vplOf arr3 0 - vfOf 1| := by
    have hneg : vplOf arr3 0 - vfOf 1 < 0 := sub_neg.mpr arr3_vpl_lt_vf
    calc vplOf arr3 0 - vfOf 1 < 0 := hneg
      _ ≤ |vplOf arr3 0 - vfOf 1| := abs_nonneg _
  exact ne_of_lt (by linarith)

/-- C3 (amended): the cost is the departure-burn magnitude plus the signed
insertion term, f = |v0 - sqrt(mu / r0)| + (vpl - vf), with mu and r0 taken
from the departure state (the insertion term carries no absolute value and
equals the claimed magnitude only when vpl >= vf); the constraint is
g = rf - rpl as claimed. -/
theorem C3_amended_cost_and_constraint (d a : OrbitState) (lam1 rf : ℝ) :
    (pcBuild d a lam1 rf).f =
      |d.v - Real.sqrt (d.mu / d.r)| +
        ((pcBuild d a lam1 rf).vpl - (pcBuild d a lam1 rf).vf) ∧
    (pcBuild d a lam1 rf).g = rf - (pcBuild d a lam1 rf).rpl :=
  ⟨rfl, rfl⟩

/-- C4 counterexample: the arccos call computing the eccentric anomaly E0
(line 58) does not clamp its argument: on a state whose cos_E sits marginally
above 1, the computed anomaly is undefined (NaN), whereas the clamped
evaluation of the same argument is defined.  This refutes the claim that
every inverse-trigonometric call in construction clamps its argument. -/
theorem C4_counterexample :
    E0N oBad = none ∧ acosN (clip oBad.cos_E (-1) 1) = some (Real.arccos 1) := by
  have hx : oBad.cos_E = 1 + 1 / 1000000000000 := rfl
  constructor
  · show acosN oBad.cos_E = none
    rw [hx, acosN, if_neg]
    norm_num
  · rw [hx, clip, max_eq_left (by norm_num), min_eq_right (by norm_num), acosN,
      if_pos (by norm_num : (-1:ℝ) ≤ 1 ∧ (1:ℝ) ≤ 1)]

/-- C4 (amended): the two arcsine calls of construction (the arrival phase
angle gam1 and the hyperbolic miss angle eps2) clamp their arguments to
[-1, 1] before evaluation and therefore always produce defined values, for
any input states, including those whose raw arguments lie outside [-1, 1];
the arccosine calls on the anomaly cosines do not clamp. -/
theorem C4_amended_arcsines_clamped (a : OrbitState) (lam1 : ℝ) :
    gam1N a lam1 = some (gam1Of a lam1) ∧ eps2N a lam1 = some (eps2Of a lam1) := by
  have hclip : ∀ x : ℝ, -1 ≤ clip x (-1) 1 ∧ clip x (-1) 1 ≤ 1 := fun x =>
    ⟨le_min (le_max_right _ _) (by norm_num), min_le_right _ _⟩
  have h1 : -1 ≤ sg1Of a lam1 ∧ sg1Of a lam1 ≤ 1 := by rw [sg1Of]; exact hclip _
  have h2 : -1 ≤ seps2Of a lam1 ∧ seps2Of a lam1 ≤ 1 := by rw [seps2Of]; exact hclip _
  constructor
  · rw [gam1N, asinN, if_pos h1]; rfl
  · rw [eps2N, asinN, if_pos h2]; rfl

/-- C6: for every solution state produced by a successful factory call,
calling init_patched_conic on it with the zero perturbation vector
reproduces exactly the same PatchedConic state (hence the same depart and
arrive states, lam1, rf, time of flight, perilune radius and speed, cost
and constraint). -/
theorem C6_factory_roundtrip (t : PCTuple) (dx : ℝ × ℝ) (pc : PCState)
    (h : init_patched_conic t dx = Except.ok pc) :
    init_patched_conic_state pc (0, 0) = Except.ok pc := by
  rcases init_ok_iff.mp h with ⟨hw, ha, rfl⟩
  unfold init_patched_conic_state
  have hkey : tupleOf (pcBuild (orbitFrom mu_earth t.r0 (t.v0 + dx.2) t.phi0)
      (atState (orbitFrom mu_earth t.r0 (t.v0 + dx.2) t.phi0) (r1Of (t.lam1 + dx.1)))
      (t.lam1 + dx.1) t.rf) =
      ⟨t.r0, t.v0 + dx.2, t.phi0, t.lam1 + dx.1, t.rf⟩ := rfl
  rw [hkey]
  apply init_ok_iff.mpr
  refine ⟨?_, ?_, ?_⟩
  · simpa using hw
  · simpa using ha
  · simp

/-- Witness for C6: the factory succeeds on the concrete tuple t6 and the
zero-perturbation round trip reproduces the same state. -/
theorem C6_factory_roundtrip_witness :
    init_patched_conic t6 (0, 0) = Except.ok pc6 ∧
    init_patched_conic_state pc6 (0, 0) = Except.ok pc6 := by
  have h : init_patched_conic t6 (0, 0) = Except.ok pc6 :=
    init_ok_iff.mpr ⟨t6_reach, t6_elliptical, rfl⟩
  exact ⟨h, C6_factory_roundtrip t6 (0, 0) pc6 h⟩

/-- C8 counterexample: on the base tuple t8 the intercept radius is
reachable (the intercept speed is finite), yet the factory does not return
a PatchedConic: the intercept conic is hyperbolic, so the constructor raises
its elliptical-arrival precondition error, which the factory propagates. -/
theorem C8_counterexample :
    ¬ vsq (orbitFrom mu_earth t8.r0 (t8.v0 + (0:ℝ)) t8.phi0)
        (r1Of (t8.lam1 + (0:ℝ))) < 0 ∧
    init_patched_conic t8 (0, 0) = Except.error PCErr.notElliptical := by
  refine ⟨t8_reach, ?_⟩
  unfold init_patched_conic atRadius mkPatchedConic
  rw [if_neg t8_reach]
  dsimp only
  rw [if_pos t8_hyperbolic]

/-- C8 (amended): if the intercept radius is unreachable (negative squared
intercept speed, i.e. non-finite speed) the factory fails with the
invalid-trajectory error before any PatchedConic is built; otherwise it
returns whatever the PatchedConic constructor produces on the new
departure/intercept pair and the perturbed parameters -- the fresh state
when the intercept conic is elliptical, and the propagated precondition
error when it is not. -/
theorem C8_amended_factory_outcome (t : PCTuple) (dx : ℝ × ℝ) :
    (vsq (orbitFrom mu_earth t.r0 (t.v0 + dx.2) t.phi0) (r1Of (t.lam1 + dx.1)) < 0 →
      init_patched_conic t dx = Except.error PCErr.radiusNotReached) ∧
    (¬ vsq (orbitFrom mu_earth t.r0 (t.v0 + dx.2) t.phi0) (r1Of (t.lam1 + dx.1)) < 0 →
      init_patched_conic t dx =
        mkPatchedConic (orbitFrom mu_earth t.r0 (t.v0 + dx.2) t.phi0)
          (atState (orbitFrom mu_earth t.r0 (t.v0 + dx.2) t.phi0) (r1Of (t.lam1 + dx.1)))
          (t.lam1 + dx.1) t.rf) := by
  constructor
  · intro hw
    unfold init_patched_conic atRadius
    rw [if_pos hw]
  · intro hw
    unfold init_patched_conic atRadius
    rw [if_neg hw]

/-- Witness for the amended C8 at the concrete tuple t8, discharging the
reachability hypothesis. -/
theorem C8_amended_factory_outcome_witness :
    ¬ vsq (orbitFrom mu_earth t8.r0 (t8.v0 + (0:ℝ)) t8.phi0)
        (r1Of (t8.lam1 + (0:ℝ))) < 0 ∧
    init_patched_conic t8 (0, 0) =
      mkPatchedConic (orbitFrom mu_earth t8.r0 (t8.v0 + (0:ℝ)) t8.phi0)
        (atState (orbitFrom mu_earth t8.r0 (t8.v0 + (0:ℝ)) t8.phi0)
          (r1Of (t8.lam1 + (0:ℝ))))
        (t8.lam1 + (0:ℝ)) t8.rf :=
  ⟨t8_reach, (C8_amended_factory_outcome t8 (0, 0)).2 t8_reach⟩

/-- Every run of the restoration loop body is an sgraStep chain from its
starting state, provided the incoming damping factor is beta0 / 2^k. -/
theorem optimize_v0_aux_chain (s : SGRA) :
    ∀ (n k : ℕ) (x : PCState),
      List.Chain (sgraStep s) x (optimize_v0_aux s n (s.beta0 / 2 ^ k) x).1 := by
  intro n
  induction n with
  | zero => intro k x; exact List.Chain.nil
  | succ n ih =>
    intro k x
    rw [optimize_v0_aux]
    by_cases hg : |x.g| ≤ s.gtol
    · rw [if_pos hg]; exact List.Chain.nil
    · rw [if_neg hg]
      cases hcall :
        init_patched_conic_state x (0, -(s.beta0 / 2 ^ k) * (x.g / x.dg_dv0)) with
      | ok xt =>
        dsimp only
        by_cases hlt : |xt.g| < |x.g|
        · rw [if_pos hlt]
          refine List.Chain.cons ⟨hlt, ?_, (init_state_ok_fields hcall).2, k, hcall⟩ ?_
          · rw [(init_state_ok_fields hcall).1, add_zero]
          · have h0 := ih 0 xt
            rw [pow_zero, div_one] at h0
            exact h0
        · rw [if_neg hlt]
          have hk := ih (k + 1) x
          rw [pow_succ, ← div_div] at hk
          exact hk
      | error e =>
        dsimp only
        have hk := ih (k + 1) x
        rw [pow_succ, ← div_div] at hk
        exact hk

/-- Field preservation propagates along an sgraStep chain. -/
theorem chain_preserves_lam1_rf (s : SGRA) :
    ∀ (l : List PCState) (x : PCState), List.Chain (sgraStep s) x l →
      ∀ y ∈ l, y.lam1 = x.lam1 ∧ y.rf = x.rf := by
  intro l
  induction l with
  | nil => intro x _ y hy; cases hy
  | cons b t ih =>
    intro x hch y hy
    rcases List.chain_cons.mp hch with ⟨hR, hch2⟩
    rcases List.mem_cons.mp hy with rfl | hy
    · exact ⟨hR.2.1, hR.2.2.1⟩
    · have h := ih b hch2 y hy
      exact ⟨h.1.trans hR.2.1, h.2.trans hR.2.2.1⟩

/-- C9: along the entire yielded sequence of optimize_v0, consecutive states
(starting from the input) strictly decrease the constraint magnitude, each
yielded state is built from its predecessor by a factory call perturbing only
the departure speed by -beta g / (dg/dv0) with beta = beta0 / 2^k for some
k >= 0, and lam1 and rf agree with the input state in every yielded state. -/
theorem C9_yield_invariants (s : SGRA) (x : PCState) (n : ℕ) :
    List.Chain (sgraStep s) x (optimize_v0 s x n).1 ∧
    ∀ y ∈ (optimize_v0 s x n).1, y.lam1 = x.lam1 ∧ y.rf = x.rf := by
  have hch : List.Chain (sgraStep s) x (optimize_v0 s x n).1 := by
    have h0 := optimize_v0_aux_chain s n 0 x
    rw [pow_zero, div_one] at h0
    exact h0
  exact ⟨hch, chain_preserves_lam1_rf s _ x hch⟩

end Claims

end PatchedConic
